import Mathlib

set_option maxRecDepth 8192

/-!
Shallow embedding of the Madryn Empleos front-end logic: the fetch-based
API client for job postings (`src/lib/api/ofertas.ts`) and the zod form
schema shared, with small variations, by the create page
(`src/app/nuevo-aviso/page.tsx`) and the edit page.

Modelling conventions:
  * JSON values are an inductive type `Json`; decoded HTTP responses are a
    record of status, raw body text and decoded JSON body.  `throw` is
    modelled by `Except`.
  * JavaScript `typeof`, strict `=== null`, truthiness of optional strings,
    the regex `\s` class, `String.prototype.trim`, and ECMAScript date-only
    string parsing are modelled explicitly below.
  * zod semantics: a field whose value has the right runtime type never
    aborts, its failed checks only mark the parse dirty, so every check and
    every chained `.refine` runs and all issues are collected; only an
    invalid enum value aborts, in which case the object-level refinements
    are skipped.  String transforms (`.trim()`) apply before later
    refinements see the value.
  * zod's built-in `.email()` / `.url()` validators are library predicates
    external to this repository; no property below depends on them, so they
    are passed in as the `Validators` parameters.
  * String lengths are measured in characters; JavaScript measures UTF-16
    code units.  The two agree on every string over the schemas' allowed
    character sets (all of which lie in the basic multilingual plane).
-/

/-! ## JSON values and HTTP responses -/

inductive Json where
  | null
  | bool (b : Bool)
  | num (n : Int)
  | str (s : String)
  | arr (elems : List Json)
  | obj (fields : List (String × Json))

/-- One already-received backend response: HTTP status, the raw body text
(`response.text()`), and the decoded JSON body (`response.json()`). -/
structure HttpResponse where
  status : Nat
  bodyText : String
  bodyJson : Json

/-- `Response.ok` of the fetch API: status in the inclusive range 200-299. -/
def respOk (r : HttpResponse) : Bool :=
  decide (200 ≤ r.status) && decide (r.status ≤ 299)

/-- Error taxonomy of the API client: a non-2xx response carrying status and
body text, or a locally detected malformed response shape. -/
inductive ApiError where
  | http (status : Nat) (body : String)
  | malformed (msg : String)

/-- JavaScript `typeof` on a decoded JSON value.  Note that `typeof x`
is the string "object" for `null`, arrays and plain objects alike. -/
def jsTypeof : Json → String
  | .null => "object"
  | .bool _ => "boolean"
  | .num _ => "number"
  | .str _ => "string"
  | .arr _ => "object"
  | .obj _ => "object"

/-- JavaScript strict comparison `data === null` on a decoded JSON value. -/
def jsIsNull : Json → Bool
  | .null => true
  | _ => false

def msgNotObject : String := "La respuesta del servidor no es un objeto válido"

def msgNotArray : String := "La respuesta del servidor no es un array válido"

/-- `fetchOfertaById` from `src/lib/api/ofertas.ts`, as a function of the
received response: non-2xx throws `Error(status, text)`; a 2xx body failing
`typeof data !== "object" || data === null` throws the not-an-object error;
otherwise the body is returned as the posting. -/
def fetchOfertaById (r : HttpResponse) : Except ApiError Json :=
  if respOk r = false then .error (.http r.status r.bodyText)
  else if jsTypeof r.bodyJson ≠ "object" ∨ jsIsNull r.bodyJson = true then
    .error (.malformed msgNotObject)
  else .ok r.bodyJson

/-- `fetchOfertaBySlug` from `src/lib/api/ofertas.ts`; identical handling to
`fetchOfertaById` (only the URL differs). -/
def fetchOfertaBySlug (r : HttpResponse) : Except ApiError Json :=
  if respOk r = false then .error (.http r.status r.bodyText)
  else if jsTypeof r.bodyJson ≠ "object" ∨ jsIsNull r.bodyJson = true then
    .error (.malformed msgNotObject)
  else .ok r.bodyJson

/-- `fetchOfertas` from `src/lib/api/ofertas.ts`: non-2xx throws
`Error(status, text)`; a 2xx body failing `Array.isArray` throws the
not-an-array error; otherwise the array is returned unchanged, in backend
order. -/
def fetchOfertas (r : HttpResponse) : Except ApiError (List Json) :=
  if respOk r = false then .error (.http r.status r.bodyText)
  else
    match r.bodyJson with
    | .arr xs => .ok xs
    | _ => .error (.malformed msgNotArray)

/-- `fetchUserOfertas` from `src/lib/api/ofertas.ts`: same response handling
as `fetchOfertas` (only URL and auth header differ). -/
def fetchUserOfertas (r : HttpResponse) : Except ApiError (List Json) :=
  if respOk r = false then .error (.http r.status r.bodyText)
  else
    match r.bodyJson with
    | .arr xs => .ok xs
    | _ => .error (.malformed msgNotArray)

/-- `deleteOferta` from `src/lib/api/ofertas.ts`: a 2xx response succeeds;
a 404 response returns early as success (idempotent delete); any other
non-2xx status throws `Error(status, text)`. -/
def deleteOferta (r : HttpResponse) : Except ApiError Unit :=
  if respOk r = false then
    if r.status = 404 then .ok ()
    else .error (.http r.status r.bodyText)
  else .ok ()

/-- `enableOfertaAdmin` from `src/lib/api/ofertas.ts`: plain status-based
error contract, no 404 tolerance. -/
def enableOfertaAdmin (r : HttpResponse) : Except ApiError Unit :=
  if respOk r = false then .error (.http r.status r.bodyText)
  else .ok ()

/-- `deleteOfertaAdmin` from `src/lib/api/ofertas.ts`: plain status-based
error contract, no 404 tolerance. -/
def deleteOfertaAdmin (r : HttpResponse) : Except ApiError Unit :=
  if respOk r = false then .error (.http r.status r.bodyText)
  else .ok ()

/-! ## The multipart `oferta` payloads built by createOferta / updateOferta

`new Date().toISOString()` stamps the clock at call time; the clock is the
explicit parameter `now` (in milliseconds since the epoch) and the ISO
rendering, an injective formatting of the timestamp, is elided. -/

/-- A browser `File`: only the properties the code reads. -/
structure FileModel where
  size : Nat
  type : String
deriving DecidableEq

/-- The `data` argument of `createOferta`. -/
structure CreateOfertaInput where
  titulo : String
  descripcion : String
  usuarioId : String
  empresaConsultora : String
  fechaCierre : Option String
  formaPostulacion : String
  emailContacto : Option String
  linkPostulacion : Option String
  categoriaId : String
  logo : Option FileModel

/-- The JSON object `ofertaData` that `createOferta` serialises into the
`oferta` multipart field. -/
structure CreateOfertaPayload where
  titulo : String
  descripcion : String
  usuarioId : String
  empresaConsultora : String
  fechaPublicacion : Int
  fechaCierre : Option String
  formaPostulacion : String
  emailContacto : Option String
  linkPostulacion : Option String
  categoriaId : String

/-- Payload assembly in `createOferta` (`src/lib/api/ofertas.ts` lines
207-218): `usuario`/`categoria` are id references, `fechaPublicacion` is
stamped from the clock, and the application-channel field not selected by
`formaPostulacion` is set to null. -/
def createOfertaPayload (d : CreateOfertaInput) (now : Int) : CreateOfertaPayload :=
  { titulo := d.titulo
    descripcion := d.descripcion
    usuarioId := d.usuarioId
    empresaConsultora := d.empresaConsultora
    fechaPublicacion := now
    fechaCierre := d.fechaCierre
    formaPostulacion := d.formaPostulacion
    emailContacto := if d.formaPostulacion = "MAIL" then d.emailContacto else none
    linkPostulacion := if d.formaPostulacion = "LINK" then d.linkPostulacion else none
    categoriaId := d.categoriaId }

/-- The `data` argument of `updateOferta`.  `fechaCierre` is a `Date`,
modelled by its millisecond timestamp. -/
structure UpdateOfertaInput where
  id : String
  titulo : String
  descripcion : String
  usuarioId : String
  empresaConsultora : String
  fechaCierre : Option Int
  formaPostulacion : String
  emailContacto : Option String
  linkPostulacion : Option String
  categoriaId : String
  logo : Option FileModel
  logoUrl : Option String
  habilitado : Bool

/-- The JSON object `ofertaData` that `updateOferta` serialises into the
`oferta` multipart field. -/
structure UpdateOfertaPayload where
  id : String
  titulo : String
  descripcion : String
  usuarioId : String
  empresaConsultora : String
  fechaPublicacion : Int
  fechaCierre : Option Int
  formaPostulacion : String
  emailContacto : Option String
  linkPostulacion : Option String
  categoriaId : String
  habilitado : Bool

/-- Payload assembly in `updateOferta` (`src/lib/api/ofertas.ts` lines
142-155).  `fechaPublicacion` is stamped from the clock at the time of the
update call; the input carries no publication date at all.  A `Date` object
is always truthy, so `fechaCierre` is forwarded whenever present. -/
def updateOfertaPayload (d : UpdateOfertaInput) (now : Int) : UpdateOfertaPayload :=
  { id := d.id
    titulo := d.titulo
    descripcion := d.descripcion
    usuarioId := d.usuarioId
    empresaConsultora := d.empresaConsultora
    fechaPublicacion := now
    fechaCierre := d.fechaCierre
    formaPostulacion := d.formaPostulacion
    emailContacto := if d.formaPostulacion = "MAIL" then d.emailContacto else none
    linkPostulacion := if d.formaPostulacion = "LINK" then d.linkPostulacion else none
    categoriaId := d.categoriaId
    habilitado := d.habilitado }

/-- The separate `logoUrl` multipart field of `updateOferta`:
`data.logoUrl ?? "null"`, the literal string sentinel for an absent logo. -/
def updateLogoUrlField (d : UpdateOfertaInput) : String :=
  d.logoUrl.getD "null"

/-! ## JavaScript string primitives used by the schemas -/

/-- The character class of the JavaScript regex `\s` (ECMAScript WhiteSpace
plus LineTerminator), which is also exactly the set of characters removed
by `String.prototype.trim`. -/
def jsWhitespaceChar (c : Char) : Bool :=
  let n := c.toNat
  n == 9 || n == 10 || n == 11 || n == 12 || n == 13 || n == 32 ||
  n == 0xa0 || n == 0x1680 ||
  (decide (0x2000 ≤ n) && decide (n ≤ 0x200a)) ||
  n == 0x2028 || n == 0x2029 || n == 0x202f || n == 0x205f ||
  n == 0x3000 || n == 0xfeff

/-- `String.prototype.trim` on a character list: drop leading and trailing
JavaScript whitespace. -/
def jsTrimList (l : List Char) : List Char :=
  ((l.dropWhile jsWhitespaceChar).reverse.dropWhile jsWhitespaceChar).reverse

/-- `String.prototype.trim`. -/
def jsTrim (s : String) : String :=
  ⟨jsTrimList s.data⟩

/-! ## ECMAScript date-only parsing

`<input type="date">` yields `""` or a `"YYYY-MM-DD"` string; ECMAScript
parses the latter as midnight UTC of that calendar day.  Strings outside
this date-only profile are modelled as unparseable, which the closing-date
refinement treats like an Invalid Date (`NaN < now` is false). -/

/-- `String.prototype.split` at the dash separator. -/
def splitDash : List Char → List (List Char)
  | [] => [[]]
  | c :: rest =>
    let r := splitDash rest
    if c == '-' then [] :: r
    else
      match r with
      | [] => [[c]]
      | h :: t => (c :: h) :: t

/-- Decimal value of an all-digit character list. -/
def digitsVal (l : List Char) : Option Nat :=
  if l.all Char.isDigit then
    some (l.foldl (fun a c => a * 10 + (c.toNat - 48)) 0)
  else none

/-- Days since 1970-01-01 of the civil date `y-m-d` (proleptic Gregorian,
valid for years ≥ 1). -/
def daysFromCivil (y m d : Nat) : Int :=
  let y2 := if m ≤ 2 then y - 1 else y
  let era := y2 / 400
  let yoe := y2 % 400
  let mp := (m + 9) % 12
  let doy := (153 * mp + 2) / 5 + (d - 1)
  let doe := yoe * 365 + yoe / 4 - yoe / 100 + doy
  ((era * 146097 + doe : Nat) : Int) - 719468

/-- Millisecond timestamp of midnight UTC on the civil date `y-m-d`. -/
def dateOnlyMs (y m d : Nat) : Int :=
  daysFromCivil y m d * 86400000

/-- `new Date(s).getTime()` for the ECMAScript date-only format
`"YYYY-MM-DD"`: midnight UTC of that day; `none` models Invalid Date. -/
def parseDateOnlyMs (s : String) : Option Int :=
  match splitDash s.data with
  | [ys, ms, ds] =>
    if ys.length = 4 ∧ ms.length = 2 ∧ ds.length = 2 then
      match digitsVal ys, digitsVal ms, digitsVal ds with
      | some y, some m, some d =>
        if 1 ≤ m ∧ m ≤ 12 ∧ 1 ≤ d ∧ d ≤ 31 then some (dateOnlyMs y m d)
        else none
      | _, _, _ => none
    else none
  | _ => none

/-! ## The zod form schemas (create page and edit page)

Field checks are modelled as functions from the raw field value to the list
of issue messages, in the order zod reports them; as explained in the
header, every check runs, so all messages are collected. -/

def msgTituloRequired : String := "El título es obligatorio"

def msgTituloMax : String := "El título no puede superar los 150 caracteres"

def msgTituloBlank : String := "El título no puede ser solo espacios"

/-- Character-set message of the create page title rule. -/
def msgTituloChars : String :=
  "El título no puede contener caracteres especiales raros (excepto /)"

/-- Character-set message of the edit page title rule (same regex, message
without the parenthesis). -/
def msgTituloCharsEdit : String :=
  "El título no puede contener caracteres especiales raros"

def msgDescripcionRequired : String := "La descripción es obligatoria"

def msgDescripcionMax : String :=
  "La descripción no puede superar los 5000 caracteres"

def msgDescripcionBlank : String := "La descripción no puede ser solo espacios"

def msgEmpresaRequired : String := "El nombre de la empresa es obligatorio"

def msgEmpresaMax : String :=
  "El nombre de la empresa no puede superar los 150 caracteres"

def msgEmpresaBlank : String := "La empresa no puede ser solo espacios"

def msgEmpresaChars : String :=
  "La empresa no puede contener caracteres especiales raros"

def msgCategoriaRequired : String := "Debes seleccionar una categoría"

/-- Stand-in for the zod default invalid-enum-value message (never exercised
by the properties below). -/
def msgFormaInvalid : String := "Invalid enum value. Expected MAIL | LINK"

def msgEmailInvalid : String := "Debes ingresar un email válido"

def msgUrlInvalid : String :=
  "Debes ingresar una URL válida (ej: https://example.com)"

def msgLinkBlank : String := "El link no puede ser solo espacios"

def msgMailRequired : String :=
  "Debes ingresar un email válido para postulación por email"

def msgLinkRequired : String :=
  "Debes ingresar una URL válida para postulación por enlace"

def msgFechaPast : String := "La fecha de cierre no puede ser anterior a hoy"

def msgLogoSize : String := "El archivo no puede superar los 5MB"

def msgLogoType : String :=
  "Solo se permiten imágenes en formato PNG, JPEG o JPG"

/-- Complement of the title regex class `[^a-zA-Z0-9\sáéíóúÁÉÍÓÚñÑ./]`
(identical on the create and edit pages). -/
def tituloCharAllowed (c : Char) : Bool :=
  c.isAlpha || c.isDigit || jsWhitespaceChar c ||
  c == 'á' || c == 'é' || c == 'í' || c == 'ó' || c == 'ú' ||
  c == 'Á' || c == 'É' || c == 'Í' || c == 'Ó' || c == 'Ú' ||
  c == 'ñ' || c == 'Ñ' || c == '.' || c == '/'

/-- Complement of the create page company regex class
`[^a-zA-Z0-9\sáéíóúÁÉÍÓÚ./]` (no eñe, slash allowed). -/
def empresaCreateCharAllowed (c : Char) : Bool :=
  c.isAlpha || c.isDigit || jsWhitespaceChar c ||
  c == 'á' || c == 'é' || c == 'í' || c == 'ó' || c == 'ú' ||
  c == 'Á' || c == 'É' || c == 'Í' || c == 'Ó' || c == 'Ú' ||
  c == '.' || c == '/'

/-- Complement of the edit page company regex class
`[^a-zA-Z0-9\sáéíóúÁÉÍÓÚñÑ.,-]` (eñe, comma and hyphen allowed, no slash). -/
def empresaEditCharAllowed (c : Char) : Bool :=
  c.isAlpha || c.isDigit || jsWhitespaceChar c ||
  c == 'á' || c == 'é' || c == 'í' || c == 'ó' || c == 'ú' ||
  c == 'Á' || c == 'É' || c == 'Í' || c == 'Ó' || c == 'Ú' ||
  c == 'ñ' || c == 'Ñ' || c == '.' || c == ',' || c == '-'

/-- The `titulo` rule chain, parameterised by the character-set message (the
only difference between the create and the edit page):
`.min(1).max(150).trim().refine(non-blank).refine(charset)`.  `min`/`max`
see the raw value, the refinements the trimmed one. -/
def tituloFieldIssuesWith (charsMsg : String) (s : String) : List String :=
  let l := s.data
  let t := jsTrimList l
  (if l.length < 1 then [msgTituloRequired] else []) ++
  (if l.length > 150 then [msgTituloMax] else []) ++
  (if 0 < t.length ∧ 0 < (jsTrimList t).length then [] else [msgTituloBlank]) ++
  (if t.any (fun c => !tituloCharAllowed c) then [charsMsg] else [])

def tituloFieldIssues : String → List String :=
  tituloFieldIssuesWith msgTituloChars

def tituloEditFieldIssues : String → List String :=
  tituloFieldIssuesWith msgTituloCharsEdit

/-- The `descripcion` rule chain: `.min(1).max(5000).trim().refine(non-blank)`
(identical on both pages). -/
def descripcionFieldIssues (s : String) : List String :=
  let l := s.data
  let t := jsTrimList l
  (if l.length < 1 then [msgDescripcionRequired] else []) ++
  (if l.length > 5000 then [msgDescripcionMax] else []) ++
  (if 0 < t.length ∧ 0 < (jsTrimList t).length then [] else [msgDescripcionBlank])

/-- The `empresaConsultora` rule chain, parameterised by the variant's
character set: `.min(1).max(150).trim().refine(non-blank).refine(charset)`. -/
def empresaFieldIssuesWith (allowedChar : Char → Bool) (s : String) : List String :=
  let l := s.data
  let t := jsTrimList l
  (if l.length < 1 then [msgEmpresaRequired] else []) ++
  (if l.length > 150 then [msgEmpresaMax] else []) ++
  (if 0 < t.length ∧ 0 < (jsTrimList t).length then [] else [msgEmpresaBlank]) ++
  (if t.any (fun c => !allowedChar c) then [msgEmpresaChars] else [])

def empresaCreateFieldIssues : String → List String :=
  empresaFieldIssuesWith empresaCreateCharAllowed

def empresaEditFieldIssues : String → List String :=
  empresaFieldIssuesWith empresaEditCharAllowed

/-- The `categoria` rule: `.min(1)`. -/
def categoriaFieldIssues (s : String) : List String :=
  if s.data.length < 1 then [msgCategoriaRequired] else []

/-- The `formaPostulacion` rule: `z.enum(["MAIL", "LINK"])`.  An invalid
value aborts the parse (handled in `formIssuesWith`). -/
def formaFieldIssues (s : String) : List String :=
  if s = "MAIL" ∨ s = "LINK" then [] else [msgFormaInvalid]

/-- zod's built-in `.email()` and `.url()` validators, external library
predicates the schemas depend on. -/
structure Validators where
  emailValid : String → Bool
  urlValid : String → Bool

/-- The `emailContacto` rule chain: `.email().optional().nullable()`.
`none` models both null and undefined (indistinguishable to every rule). -/
def emailFieldIssues (V : Validators) : Option String → List String
  | none => []
  | some s => if V.emailValid s then [] else [msgEmailInvalid]

/-- The `linkPostulacion` rule chain:
`.url().trim().refine(non-blank-if-present).optional().nullable()`.
`.url()` sees the raw value, the refinement the trimmed one. -/
def linkFieldIssues (V : Validators) : Option String → List String
  | none => []
  | some s =>
    let t := jsTrimList s.data
    (if V.urlValid s then [] else [msgUrlInvalid]) ++
    (if t = [] ∨ (0 < t.length ∧ 0 < (jsTrimList t).length) then []
     else [msgLinkBlank])

/-- The logo size check: `!file || file.size <= 5 * 1024 * 1024`. -/
def logoSizeOk : Option FileModel → Bool
  | none => true
  | some f => decide (f.size ≤ 5 * 1024 * 1024)

/-- The logo type check:
`!file || ["image/png", "image/jpeg", "image/jpg"].includes(file.type)`. -/
def logoTypeOk : Option FileModel → Bool
  | none => true
  | some f => f.type == "image/png" || f.type == "image/jpeg" || f.type == "image/jpg"

/-- The `logo` rule chain: `.instanceof(File).optional()` with the two
refinements above (identical on both pages). -/
def logoFieldIssues (logo : Option FileModel) : List String :=
  (if logoSizeOk logo then [] else [msgLogoSize]) ++
  (if logoTypeOk logo then [] else [msgLogoType])

/-- The raw form state (the schema's input type). -/
structure FormState where
  titulo : String
  descripcion : String
  empresaConsultora : String
  categoria : String
  formaPostulacion : String
  emailContacto : Option String
  linkPostulacion : Option String
  fechaCierre : Option String
  logo : Option FileModel

/-- The parsed form value the object-level refinements observe: the
`.trim()` transforms of `titulo`, `descripcion`, `empresaConsultora` and
`linkPostulacion` have been applied. -/
def parseForm (f : FormState) : FormState :=
  { f with
    titulo := jsTrim f.titulo
    descripcion := jsTrim f.descripcion
    empresaConsultora := jsTrim f.empresaConsultora
    linkPostulacion := f.linkPostulacion.map jsTrim }

/-- JavaScript test `!x || x.trim() === ""` on an optional string. -/
def strMissing : Option String → Bool
  | none => true
  | some s => s == "" || jsTrim s == ""

/-- First object-level refinement: channel MAIL requires a non-blank
`emailContacto`. -/
def mailRefineFails (f : FormState) : Bool :=
  f.formaPostulacion == "MAIL" && strMissing f.emailContacto

/-- Second object-level refinement: channel LINK requires a non-blank
`linkPostulacion`. -/
def linkRefineFails (f : FormState) : Bool :=
  f.formaPostulacion == "LINK" && strMissing f.linkPostulacion

/-- Third object-level refinement:
`data.fechaCierre && new Date(data.fechaCierre) < new Date()` rejects the
value.  The empty string is falsy; an unparseable string gives NaN, and
NaN comparisons are false. -/
def fechaRefineFails (fechaCierre : Option String) (now : Int) : Bool :=
  match fechaCierre with
  | none => false
  | some s =>
    if s == "" then false
    else
      match parseDateOnlyMs s with
      | none => false
      | some t => decide (t < now)

/-- One reported validation issue: path and message. -/
structure Issue where
  path : List String
  msg : String
deriving DecidableEq

/-- Full schema evaluation, parameterised by the per-variant `titulo` and
`empresaConsultora` rules.  Field issues come first, in shape order; the
three chained object-level refinements then all run on the parsed value —
unless the enum field aborted the parse, in which case they are skipped. -/
def formIssuesWith (tituloRule empresaRule : String → List String)
    (V : Validators) (f : FormState) (now : Int) : List Issue :=
  let fieldIssues :=
    (tituloRule f.titulo).map (Issue.mk ["titulo"]) ++
    (descripcionFieldIssues f.descripcion).map (Issue.mk ["descripcion"]) ++
    (empresaRule f.empresaConsultora).map (Issue.mk ["empresaConsultora"]) ++
    (categoriaFieldIssues f.categoria).map (Issue.mk ["categoria"]) ++
    (formaFieldIssues f.formaPostulacion).map (Issue.mk ["formaPostulacion"]) ++
    (emailFieldIssues V f.emailContacto).map (Issue.mk ["emailContacto"]) ++
    (linkFieldIssues V f.linkPostulacion).map (Issue.mk ["linkPostulacion"]) ++
    (logoFieldIssues f.logo).map (Issue.mk ["logo"])
  if f.formaPostulacion = "MAIL" ∨ f.formaPostulacion = "LINK" then
    let p := parseForm f
    fieldIssues ++
    (if mailRefineFails p then [Issue.mk ["emailContacto"] msgMailRequired] else []) ++
    (if linkRefineFails p then [Issue.mk ["linkPostulacion"] msgLinkRequired] else []) ++
    (if fechaRefineFails p.fechaCierre now then [Issue.mk ["fechaCierre"] msgFechaPast] else [])
  else fieldIssues

/-- The create page `formSchema` (`src/app/nuevo-aviso/page.tsx`). -/
def formIssues : Validators → FormState → Int → List Issue :=
  formIssuesWith tituloFieldIssues empresaCreateFieldIssues

/-- The edit page `formSchema` (same file as `EditForm`). -/
def formIssuesEdit : Validators → FormState → Int → List Issue :=
  formIssuesWith tituloEditFieldIssues empresaEditFieldIssues

/-! ## Concrete inputs used by the witnesses -/

def trueValidators : Validators :=
  { emailValid := fun _ => true, urlValid := fun _ => true }

def linkFormNoLink : FormState :=
  { titulo := "Cocinero"
    descripcion := "Se busca cocinero con experiencia"
    empresaConsultora := "Restaurante Madryn"
    categoria := "c1"
    formaPostulacion := "LINK"
    emailContacto := some "contacto@empresa.com"
    linkPostulacion := none
    fechaCierre := none
    logo := none }

def tituloAllSpaces : String :=
  ⟨List.replicate 150 ' '⟩

def tituloMaxOk : String :=
  ⟨List.replicate 150 'a'⟩

def tituloTooLong : String :=
  ⟨List.replicate 151 'a'⟩

def createInputMail : CreateOfertaInput :=
  { titulo := "Cocinero"
    descripcion := "Se busca cocinero"
    usuarioId := "u1"
    empresaConsultora := "Restaurante Madryn"
    fechaCierre := none
    formaPostulacion := "MAIL"
    emailContacto := some "contacto@empresa.com"
    linkPostulacion := some "https://example.com/postular"
    categoriaId := "c1"
    logo := none }

def createInputLink : CreateOfertaInput :=
  { createInputMail with formaPostulacion := "LINK" }

def updateInputMail : UpdateOfertaInput :=
  { id := "o1"
    titulo := "Cocinero"
    descripcion := "Se busca cocinero"
    usuarioId := "u1"
    empresaConsultora := "Restaurante Madryn"
    fechaCierre := none
    formaPostulacion := "MAIL"
    emailContacto := some "contacto@empresa.com"
    linkPostulacion := some "https://example.com/postular"
    categoriaId := "c1"
    logo := none
    logoUrl := none
    habilitado := false }

def updateInputLink : UpdateOfertaInput :=
  { updateInputMail with formaPostulacion := "LINK" }

/-! ## Helper lemmas -/

theorem mem_of_mem_dropWhile {p : Char → Bool} :
    ∀ {l : List Char} {c : Char}, c ∈ l.dropWhile p → c ∈ l := by
  intro l
  induction l with
  | nil => intro c h; rw [List.dropWhile_nil] at h; exact h
  | cons a t ih =>
    intro c h
    cases hp : p a with
    | true =>
      simp only [List.dropWhile_cons, hp, if_true] at h
      exact List.mem_cons_of_mem a (ih h)
    | false =>
      simp only [List.dropWhile_cons, hp, if_false] at h
      exact h

theorem exists_nonp_of_dropWhile {p : Char → Bool} :
    ∀ {l : List Char}, (∃ c ∈ l, p c = false) →
      ∃ c ∈ l.dropWhile p, p c = false := by
  intro l
  induction l with
  | nil => rintro ⟨c, hc, _⟩; cases hc
  | cons a t ih =>
    rintro ⟨c, hc, hcf⟩
    cases hp : p a with
    | true =>
      simp only [List.dropWhile_cons, hp, if_true]
      apply ih
      rcases List.mem_cons.mp hc with rfl | hct
      · rw [hp] at hcf; cases hcf
      · exact ⟨c, hct, hcf⟩
    | false =>
      simp only [List.dropWhile_cons, hp, if_false]
      exact ⟨c, hc, hcf⟩

theorem jsTrimList_mem {l : List Char} {c : Char} (h : c ∈ jsTrimList l) :
    c ∈ l := by
  unfold jsTrimList at h
  rw [List.mem_reverse] at h
  have h1 := mem_of_mem_dropWhile h
  rw [List.mem_reverse] at h1
  exact mem_of_mem_dropWhile h1

theorem jsTrimList_keeps {l : List Char}
    (h : ∃ c ∈ l, jsWhitespaceChar c = false) :
    ∃ c ∈ jsTrimList l, jsWhitespaceChar c = false := by
  unfold jsTrimList
  have h1 := exists_nonp_of_dropWhile h
  have h2 : ∃ c ∈ (l.dropWhile jsWhitespaceChar).reverse, jsWhitespaceChar c = false := by
    obtain ⟨c, hc, hcf⟩ := h1
    exact ⟨c, List.mem_reverse.mpr hc, hcf⟩
  obtain ⟨c, hc, hcf⟩ := exists_nonp_of_dropWhile h2
  exact ⟨c, List.mem_reverse.mpr hc, hcf⟩

theorem jsTrimList_pos {l : List Char}
    (h : ∃ c ∈ l, jsWhitespaceChar c = false) :
    0 < (jsTrimList l).length := by
  obtain ⟨c, hc, _⟩ := jsTrimList_keeps h
  exact List.length_pos.mpr (List.ne_nil_of_mem hc)

theorem dropWhile_eq_nil_of_all {p : Char → Bool} :
    ∀ {l : List Char}, l.all p = true → l.dropWhile p = [] := by
  intro l
  induction l with
  | nil => intro _; rfl
  | cons a t ih =>
    intro h
    rw [List.all_cons, Bool.and_eq_true] at h
    simp only [List.dropWhile_cons, h.1, if_true]
    exact ih h.2

theorem jsTrimList_eq_nil_of_all {l : List Char}
    (h : l.all jsWhitespaceChar = true) : jsTrimList l = [] := by
  unfold jsTrimList
  rw [dropWhile_eq_nil_of_all h]
  rfl

/-! ## Claims about the API client -/

/-- Claim C1: for every input to createOferta and updateOferta, the JSON
oferta payload satisfies channel exclusivity — if formaPostulacion is MAIL
then linkPostulacion is null in the payload, and if it is LINK then
emailContacto is null, regardless of which fields the caller populated. -/
theorem claim_C1_payload_channel_exclusivity
    (c : CreateOfertaInput) (u : UpdateOfertaInput) (now : Int) :
    ((c.formaPostulacion = "MAIL" → (createOfertaPayload c now).linkPostulacion = none) ∧
     (c.formaPostulacion = "LINK" → (createOfertaPayload c now).emailContacto = none)) ∧
    ((u.formaPostulacion = "MAIL" → (updateOfertaPayload u now).linkPostulacion = none) ∧
     (u.formaPostulacion = "LINK" → (updateOfertaPayload u now).emailContacto = none)) := by
  refine ⟨⟨fun h => ?_, fun h => ?_⟩, ⟨fun h => ?_, fun h => ?_⟩⟩ <;>
    simp [createOfertaPayload, updateOfertaPayload, h]

/-- Witness for claim C1 at concrete MAIL and LINK inputs. -/
theorem claim_C1_payload_channel_exclusivity_witness :
    (createOfertaPayload createInputMail 0).linkPostulacion = none ∧
    (createOfertaPayload createInputLink 0).emailContacto = none ∧
    (updateOfertaPayload updateInputMail 0).linkPostulacion = none ∧
    (updateOfertaPayload updateInputLink 0).emailContacto = none :=
  ⟨(claim_C1_payload_channel_exclusivity createInputMail updateInputMail 0).1.1 rfl,
   (claim_C1_payload_channel_exclusivity createInputLink updateInputLink 0).1.2 rfl,
   (claim_C1_payload_channel_exclusivity createInputMail updateInputMail 0).2.1 rfl,
   (claim_C1_payload_channel_exclusivity createInputLink updateInputLink 0).2.2 rfl⟩

/-- Claim C4: deleteOferta succeeds exactly on a 2xx or 404 response and
throws the status-and-body error on every other status; in particular a
second call answered 404 still succeeds. -/
theorem claim_C4_delete_idempotent (r : HttpResponse) :
    (respOk r = true ∨ r.status = 404 → deleteOferta r = .ok ()) ∧
    (respOk r = false → r.status ≠ 404 →
      deleteOferta r = .error (.http r.status r.bodyText)) := by
  constructor
  · rintro (h | h)
    · simp [deleteOferta, h]
    · unfold deleteOferta
      by_cases hok : respOk r = false
      · rw [if_pos hok, if_pos h]
      · rw [if_neg hok]
  · intro h h4
    unfold deleteOferta
    rw [if_pos h, if_neg h4]

/-- Witness for claim C4: a 200 first call, a 404 second call, and a 500
failure. -/
theorem claim_C4_delete_idempotent_witness :
    deleteOferta { status := 200, bodyText := "", bodyJson := Json.null } = .ok () ∧
    deleteOferta { status := 404, bodyText := "no existe", bodyJson := Json.null } = .ok () ∧
    deleteOferta { status := 500, bodyText := "boom", bodyJson := Json.null } =
      .error (.http 500 "boom") :=
  ⟨(claim_C4_delete_idempotent _).1 (Or.inl rfl),
   (claim_C4_delete_idempotent _).1 (Or.inr rfl),
   (claim_C4_delete_idempotent _).2 rfl (by decide)⟩

/-- Claim C5: on a 2xx response, fetchOfertas returns the decoded array in
backend order, and on any 2xx body that is not an array it throws the
not-an-array malformed-response error (never a partial result). -/
theorem claim_C5_fetch_all_shape (r : HttpResponse) (h : respOk r = true) :
    (∀ xs, r.bodyJson = Json.arr xs → fetchOfertas r = .ok xs) ∧
    ((∀ xs, r.bodyJson ≠ Json.arr xs) →
      fetchOfertas r = .error (.malformed msgNotArray)) := by
  have hne : ¬ respOk r = false := by simp [h]
  constructor
  · intro xs hxs
    unfold fetchOfertas
    rw [if_neg hne, hxs]
  · intro hnarr
    unfold fetchOfertas
    rw [if_neg hne]
    cases hb : r.bodyJson
    case arr xs => exact absurd hb (hnarr xs)
    all_goals rfl

/-- Witness for claim C5: a one-element array is returned as-is; a JSON
object body is rejected as malformed. -/
theorem claim_C5_fetch_all_shape_witness :
    fetchOfertas { status := 200, bodyText := "", bodyJson := Json.arr [Json.num 1] } =
      .ok [Json.num 1] ∧
    fetchOfertas { status := 200, bodyText := "", bodyJson := Json.obj [] } =
      .error (.malformed msgNotArray) :=
  ⟨(claim_C5_fetch_all_shape
      { status := 200, bodyText := "", bodyJson := Json.arr [Json.num 1] } rfl).1 _ rfl,
   (claim_C5_fetch_all_shape
      { status := 200, bodyText := "", bodyJson := Json.obj [] } rfl).2
     (fun _ h => Json.noConfusion h)⟩

/-- Claim C6 counterexample: a 2xx response whose decoded body is a JSON
array is NOT rejected by fetchOfertaById / fetchOfertaBySlug — in
JavaScript `typeof [] === "object"`, so the array is returned as if it were
a posting, refuting the claim that every non-object body fails. -/
theorem claim_C6_array_body_counterexample :
    fetchOfertaById { status := 200, bodyText := "[]", bodyJson := Json.arr [] } =
      .ok (Json.arr []) ∧
    fetchOfertaBySlug { status := 200, bodyText := "[]", bodyJson := Json.arr [] } =
      .ok (Json.arr []) :=
  ⟨rfl, rfl⟩

/-- Claim C6 amended: on a 2xx response fetchOfertaById and fetchOfertaBySlug
fail with the malformed-response error exactly when the decoded body is null
or a JSON primitive; an array body, like an object body, passes the
typeof-object check and is returned; every non-2xx response yields the error
carrying the HTTP status and response body text. -/
theorem claim_C6_fetch_one_shape (r : HttpResponse) :
    (respOk r = false →
        fetchOfertaById r = .error (.http r.status r.bodyText) ∧
        fetchOfertaBySlug r = .error (.http r.status r.bodyText)) ∧
    (respOk r = true →
        ((r.bodyJson = Json.null ∨ (∃ b, r.bodyJson = Json.bool b) ∨
          (∃ n, r.bodyJson = Json.num n) ∨ (∃ s, r.bodyJson = Json.str s)) →
            fetchOfertaById r = .error (.malformed msgNotObject) ∧
            fetchOfertaBySlug r = .error (.malformed msgNotObject)) ∧
        (((∃ xs, r.bodyJson = Json.arr xs) ∨ (∃ fs, r.bodyJson = Json.obj fs)) →
            fetchOfertaById r = .ok r.bodyJson ∧
            fetchOfertaBySlug r = .ok r.bodyJson)) := by
  constructor
  · intro h
    constructor
    · unfold fetchOfertaById; rw [if_pos h]
    · unfold fetchOfertaBySlug; rw [if_pos h]
  · intro h
    have hne : ¬ respOk r = false := by simp [h]
    constructor
    · rintro (hb | ⟨b, hb⟩ | ⟨n, hb⟩ | ⟨s, hb⟩) <;>
        constructor <;>
        · first
          | (unfold fetchOfertaById; rw [if_neg hne, hb, if_pos (by simp [jsTypeof, jsIsNull])])
          | (unfold fetchOfertaBySlug; rw [if_neg hne, hb, if_pos (by simp [jsTypeof, jsIsNull])])
    · rintro (⟨xs, hb⟩ | ⟨fs, hb⟩) <;>
        constructor <;>
        · first
          | (unfold fetchOfertaById; rw [if_neg hne, hb, if_neg (by simp [jsTypeof, jsIsNull])])
          | (unfold fetchOfertaBySlug; rw [if_neg hne, hb, if_neg (by simp [jsTypeof, jsIsNull])])

/-- Witness for claim C6 amended: a null body and a string body are rejected
as malformed, an object body is returned, and a 500 carries status and
text. -/
theorem claim_C6_fetch_one_shape_witness :
    fetchOfertaById { status := 200, bodyText := "null", bodyJson := Json.null } =
      .error (.malformed msgNotObject) ∧
    fetchOfertaBySlug { status := 200, bodyText := "x", bodyJson := Json.str "x" } =
      .error (.malformed msgNotObject) ∧
    fetchOfertaById { status := 200, bodyText := "o", bodyJson := Json.obj [] } =
      .ok (Json.obj []) ∧
    fetchOfertaById { status := 500, bodyText := "boom", bodyJson := Json.null } =
      .error (.http 500 "boom") :=
  ⟨((claim_C6_fetch_one_shape
      { status := 200, bodyText := "null", bodyJson := Json.null }).2 rfl).1
        (Or.inl rfl) |>.1,
   ((claim_C6_fetch_one_shape
      { status := 200, bodyText := "x", bodyJson := Json.str "x" }).2 rfl).1
        (Or.inr (Or.inr (Or.inr ⟨"x", rfl⟩))) |>.2,
   ((claim_C6_fetch_one_shape
      { status := 200, bodyText := "o", bodyJson := Json.obj [] }).2 rfl).2
        (Or.inr ⟨[], rfl⟩) |>.1,
   ((claim_C6_fetch_one_shape
      { status := 500, bodyText := "boom", bodyJson := Json.null }).1 rfl) |>.1⟩

/-- Claim C10: the oferta payload built by updateOferta stamps its
fechaPublicacion from the clock at the moment of the update call; the field
is the same for all inputs (the input carries no original publication date),
so every owner edit overwrites the stored publication timestamp. -/
theorem claim_C10_fecha_publicacion_restamped
    (u v : UpdateOfertaInput) (now : Int) :
    (updateOfertaPayload u now).fechaPublicacion = now ∧
    (updateOfertaPayload u now).fechaPublicacion =
      (updateOfertaPayload v now).fechaPublicacion :=
  ⟨rfl, rfl⟩

/-! ## Claims about the form schemas -/

/-- Claim C2: the closing-date refinement, shared verbatim by the create and
edit schemas, compares `new Date("YYYY-MM-DD")` — midnight UTC of that
day — against the current instant with `<`.  Evaluated at the failing input
(fechaCierre "2026-10-11", validated at 15:00 UTC on 2026-10-11): the rule
rejects a closing date equal to today, while its own message states that
only a date earlier than today is rejected; the boundary is inclusive only
at the exact midnight instant, and yesterday's date is indeed rejected. -/
theorem claim_C2_fecha_cierre_today_rejected :
    parseDateOnlyMs "2026-10-11" = some (dateOnlyMs 2026 10 11) ∧
    fechaRefineFails (some "2026-10-11") (dateOnlyMs 2026 10 11 + 54000000) = true ∧
    fechaRefineFails (some "2026-10-11") (dateOnlyMs 2026 10 11) = false ∧
    fechaRefineFails (some "2026-10-10") (dateOnlyMs 2026 10 11 + 54000000) = true ∧
    msgFechaPast = "La fecha de cierre no puede ser anterior a hoy" := by
  refine ⟨?_, ?_, ?_, ?_, rfl⟩ <;> decide

/-- Claim C3 counterexample: the create company rule accepts "Pesquera S/A"
(slash allowed) while the edit rule rejects it, and the edit rule accepts
the eñe, which the create rule rejects — refuting both that the variants
differ only by comma and hyphen and that every create-accepted name is
edit-accepted. -/
theorem claim_C3_empresa_charset_counterexample :
    (empresaCreateFieldIssues "Pesquera S/A" = [] ∧
     empresaEditFieldIssues "Pesquera S/A" = [msgEmpresaChars]) ∧
    (empresaCreateCharAllowed '/' = true ∧ empresaEditCharAllowed '/' = false) ∧
    (empresaCreateCharAllowed 'ñ' = false ∧ empresaEditCharAllowed 'ñ' = true) := by
  refine ⟨⟨?_, ?_⟩, ⟨?_, ?_⟩, ⟨?_, ?_⟩⟩ <;> decide

/-- Claim C3 amended: the create and edit company character sets agree on
every character other than the slash, the eñes, the comma and the hyphen;
the create variant additionally allows only the slash, and the edit variant
additionally allows only eñes, comma and hyphen — so neither accepts a
superset of the other. -/
theorem claim_C3_empresa_charset_relation :
    (∀ c : Char, c ≠ '/' → c ≠ 'ñ' → c ≠ 'Ñ' → c ≠ ',' → c ≠ '-' →
        empresaEditCharAllowed c = empresaCreateCharAllowed c) ∧
    (empresaCreateCharAllowed '/' = true ∧ empresaEditCharAllowed '/' = false) ∧
    ((empresaCreateCharAllowed 'ñ' = false ∧ empresaEditCharAllowed 'ñ' = true) ∧
     (empresaCreateCharAllowed 'Ñ' = false ∧ empresaEditCharAllowed 'Ñ' = true) ∧
     (empresaCreateCharAllowed ',' = false ∧ empresaEditCharAllowed ',' = true) ∧
     (empresaCreateCharAllowed '-' = false ∧ empresaEditCharAllowed '-' = true)) := by
  refine ⟨?_, by decide, by decide⟩
  intro c h1 h2 h3 h4 h5
  have e1 := beq_false_of_ne h1
  have e2 := beq_false_of_ne h2
  have e3 := beq_false_of_ne h3
  have e4 := beq_false_of_ne h4
  have e5 := beq_false_of_ne h5
  simp only [empresaEditCharAllowed, empresaCreateCharAllowed,
    e1, e2, e3, e4, e5, Bool.or_false, Bool.false_or]

/-- Witness for claim C3 amended, at a character outside the five
exceptional ones. -/
theorem claim_C3_empresa_charset_relation_witness :
    empresaEditCharAllowed 'a' = empresaCreateCharAllowed 'a' :=
  claim_C3_empresa_charset_relation.1 'a'
    (by decide) (by decide) (by decide) (by decide) (by decide)

/-- Claim C7 counterexample: a title of 150 spaces is 150 characters long
and drawn entirely from the allowed character set (which contains
whitespace), yet it fails validation through the only-spaces rule — so not
every 150-character title over the allowed set passes. -/
theorem claim_C7_titulo_counterexample :
    tituloAllSpaces.data.length = 150 ∧
    tituloAllSpaces.data.all tituloCharAllowed = true ∧
    tituloFieldIssues tituloAllSpaces = [msgTituloBlank] := by
  refine ⟨?_, ?_, ?_⟩ <;> decide

/-- Claim C7 amended, for both title variants (they share every rule and
differ only in the character-set message): a title of exactly 150 allowed
characters, at least one of which is not whitespace, produces no issue; a
title of 151 characters is reported with the max-length message; and a
nonempty all-whitespace title is reported with the only-spaces message even
though its raw length is positive. -/
theorem claim_C7_titulo_rules :
    (∀ (m : String) (s : String), s.data.length = 150 →
        s.data.all tituloCharAllowed = true →
        s.data.any (fun c => !jsWhitespaceChar c) = true →
        tituloFieldIssuesWith m s = []) ∧
    (∀ (m : String) (s : String), s.data.length = 151 →
        msgTituloMax ∈ tituloFieldIssuesWith m s) ∧
    (∀ (m : String) (s : String), s.data ≠ [] →
        s.data.all jsWhitespaceChar = true →
        msgTituloBlank ∈ tituloFieldIssuesWith m s) := by
  refine ⟨?_, ?_, ?_⟩
  · intro m s h150 hall hnws
    have hne : ∃ c ∈ s.data, jsWhitespaceChar c = false := by
      obtain ⟨c, hc, hcf⟩ := List.any_eq_true.mp hnws
      refine ⟨c, hc, ?_⟩
      revert hcf
      cases jsWhitespaceChar c <;> simp
    have ht1 : 0 < (jsTrimList s.data).length := jsTrimList_pos hne
    have ht2 : 0 < (jsTrimList (jsTrimList s.data)).length :=
      jsTrimList_pos (jsTrimList_keeps hne)
    have hchar : (jsTrimList s.data).any (fun c => !tituloCharAllowed c) = false := by
      rw [Bool.eq_false_iff]
      intro hx
      obtain ⟨c, hct, hcf⟩ := List.any_eq_true.mp hx
      have hca := List.all_eq_true.mp hall c (jsTrimList_mem hct)
      rw [hca] at hcf
      simp at hcf
    simp only [tituloFieldIssuesWith]
    rw [h150, if_neg (by decide), if_neg (by decide), if_pos ⟨ht1, ht2⟩, hchar]
    simp
  · intro m s h151
    simp only [tituloFieldIssuesWith]
    rw [h151]
    simp [List.mem_append]
  · intro m s hne hall
    have hlen : ¬ s.data.length < 1 := by
      have := List.length_pos.mpr hne
      omega
    have ht : jsTrimList s.data = [] := jsTrimList_eq_nil_of_all hall
    simp only [tituloFieldIssuesWith]
    rw [ht, if_neg hlen]
    simp [List.mem_append, jsTrimList]

/-- Witness for claim C7 amended: 150 letters pass under both variant
messages, 151 letters hit the max-length message, three spaces hit the
only-spaces message. -/
theorem claim_C7_titulo_rules_witness :
    tituloFieldIssuesWith msgTituloChars tituloMaxOk = [] ∧
    tituloFieldIssuesWith msgTituloCharsEdit tituloMaxOk = [] ∧
    msgTituloMax ∈ tituloFieldIssuesWith msgTituloChars tituloTooLong ∧
    msgTituloBlank ∈ tituloFieldIssuesWith msgTituloChars "   " :=
  ⟨claim_C7_titulo_rules.1 msgTituloChars tituloMaxOk (by decide) (by decide) (by decide),
   claim_C7_titulo_rules.1 msgTituloCharsEdit tituloMaxOk (by decide) (by decide) (by decide),
   claim_C7_titulo_rules.2.1 msgTituloChars tituloTooLong (by decide),
   claim_C7_titulo_rules.2.2 msgTituloChars "   " (by decide) (by decide)⟩

/-- Claim C8: for every validator pair, clock instant and form state whose
channel is LINK and whose linkPostulacion is null/undefined or blank after
trimming, both schemas report the link-required message on linkPostulacion —
whatever emailContacto holds — and validation fails. -/
theorem claim_C8_link_required (V : Validators) (f : FormState) (now : Int)
    (hforma : f.formaPostulacion = "LINK")
    (hlink : f.linkPostulacion = none ∨
             ∃ s, f.linkPostulacion = some s ∧ jsTrim s = "") :
    (Issue.mk ["linkPostulacion"] msgLinkRequired ∈ formIssues V f now ∧
      formIssues V f now ≠ []) ∧
    (Issue.mk ["linkPostulacion"] msgLinkRequired ∈ formIssuesEdit V f now ∧
      formIssuesEdit V f now ≠ []) := by
  have hfail : linkRefineFails (parseForm f) = true := by
    unfold linkRefineFails parseForm
    rcases hlink with h | ⟨s, hs, ht⟩
    · simp [hforma, h, strMissing]
    · simp [hforma, hs, ht, strMissing]
  have key : ∀ tr er, Issue.mk ["linkPostulacion"] msgLinkRequired ∈
      formIssuesWith tr er V f now := by
    intro tr er
    unfold formIssuesWith
    rw [if_pos (Or.inr hforma)]
    simp [hfail, List.mem_append]
  exact ⟨⟨key _ _, List.ne_nil_of_mem (key _ _)⟩,
         ⟨key _ _, List.ne_nil_of_mem (key _ _)⟩⟩

/-- Witness for claim C8: a LINK form with a populated email and no link is
rejected with the link-required message by both schemas. -/
theorem claim_C8_link_required_witness :
    Issue.mk ["linkPostulacion"] msgLinkRequired ∈
      formIssues trueValidators linkFormNoLink 0 ∧
    Issue.mk ["linkPostulacion"] msgLinkRequired ∈
      formIssuesEdit trueValidators linkFormNoLink 0 :=
  ⟨(claim_C8_link_required trueValidators linkFormNoLink 0 rfl (Or.inl rfl)).1.1,
   (claim_C8_link_required trueValidators linkFormNoLink 0 rfl (Or.inl rfl)).2.1⟩

/-- Claim C9: the logo rules of the schemas — a file of exactly
5242880 bytes passes the size check (and a PNG of that size passes the
whole rule), 5242881 bytes fails the size check, a MIME type outside
png/jpeg/jpg fails the type check, and an absent logo passes both. -/
theorem claim_C9_logo_rules :
    (∀ f : FileModel, f.size = 5242880 → logoSizeOk (some f) = true) ∧
    (∀ f : FileModel, f.size = 5242880 → f.type = "image/png" →
        logoFieldIssues (some f) = []) ∧
    (∀ f : FileModel, f.size = 5242881 → logoSizeOk (some f) = false) ∧
    (∀ f : FileModel, f.type ≠ "image/png" → f.type ≠ "image/jpeg" →
        f.type ≠ "image/jpg" → logoTypeOk (some f) = false) ∧
    logoFieldIssues none = [] := by
  refine ⟨?_, ?_, ?_, ?_, rfl⟩
  · intro f h
    simp [logoSizeOk, h]
  · intro f h1 h2
    simp [logoFieldIssues, logoSizeOk, logoTypeOk, h1, h2]
  · intro f h
    simp [logoSizeOk, h]
  · intro f h1 h2 h3
    simp only [logoTypeOk, beq_false_of_ne h1, beq_false_of_ne h2,
      beq_false_of_ne h3, Bool.or_false]

/-- Witness for claim C9 at concrete files. -/
theorem claim_C9_logo_rules_witness :
    logoSizeOk (some { size := 5242880, type := "image/png" }) = true ∧
    logoFieldIssues (some { size := 5242880, type := "image/png" }) = [] ∧
    logoSizeOk (some { size := 5242881, type := "image/png" }) = false ∧
    logoTypeOk (some { size := 100, type := "image/gif" }) = false :=
  ⟨claim_C9_logo_rules.1 _ rfl,
   claim_C9_logo_rules.2.1 _ rfl rfl,
   claim_C9_logo_rules.2.2.1 _ rfl,
   claim_C9_logo_rules.2.2.2.1 _ (by decide) (by decide) (by decide)⟩
